import Mathlib

/-!
Verification of the BugHunterSuite security-scanner core.

This file gives a shallow embedding of the scan orchestration and
check-execution engine (`performSecurityCheck` and its 13 probes,
src/unnamed/part_001) and of the in-memory job store
(`MemStorage`, src/unnamed/part_004), and proves or refutes the
frozen claims about them.

Modelling conventions:
* Every network call is resolved by an environment (`Network`).  Each
  probe gets its own oracle component: single-request probes receive an
  `Except String Response` (the error case models a rejected request,
  i.e. a thrown exception), multi-request probes receive a function
  `Request → Except String Response` keyed by the request they build.
  Distinct call sites may observe distinct outcomes, as network calls
  are temporally distinct in the real system.
* JavaScript strings are Lean `String`s; `text.includes(pat)` is
  `jsIncludes text pat`; `text.toLowerCase()` is `jsToLower` (ASCII
  case folding, as all compared patterns are ASCII).
* A probe has the JS type `(url, result) => Promise<void>` and mutates
  `result` in place, possibly rejecting.  Here it is a state-passing
  function `… → SecurityCheckResult → SecurityCheckResult × Option String`
  returning the mutated slot and `some message` when it throws (the slot
  component then holds the mutations performed before the throw).
* `updateProgress` callbacks are collected into the returned list of
  rational numbers, in call order; JS number arithmetic on these values
  is modelled exactly by `ℚ` (the values involved are small exact
  fractions).
-/

namespace BugHunter

/-- Does `pat` occur at the start of `l`?  (Helper for the substring scan.) -/
def listStarts : List Char → List Char → Bool
  | [], _ => true
  | _ :: _, [] => false
  | p :: ps, c :: cs => c == p && listStarts ps cs

/-- Does `pat` occur anywhere in `l`?  (Helper for `jsIncludes`.) -/
def listHasInfix (pat : List Char) : List Char → Bool
  | [] => pat.isEmpty
  | c :: cs => listStarts pat (c :: cs) || listHasInfix pat cs

/-- JavaScript `s.includes(pat)`: substring containment. -/
def jsIncludes (s pat : String) : Bool :=
  listHasInfix pat.toList s.toList

/-- JavaScript `s.startsWith(pre)`. -/
def jsStartsWith (s pre : String) : Bool :=
  listStarts pre.toList s.toList

/-- JavaScript `s.toLowerCase()` restricted to ASCII case folding
(`Char.toLower`); every pattern compared against a folded string in the
source is ASCII, so this is faithful where it matters. -/
def jsToLower (s : String) : String :=
  String.mk (s.toList.map Char.toLower)

/-- JS optional chaining `list?.push(x)`: appends when the field is
defined, does nothing when it is `undefined`. -/
def pushOpt (l : Option (List String)) (x : String) : Option (List String) :=
  match l with
  | some xs => some (xs ++ [x])
  | none => none

/-- The per-probe verdict record (`SecurityCheckResult`,
src/unnamed/part_001 lines 5-15).  All fields optional, as in the
source interface. -/
structure SecurityCheckResult where
  valid : Option Bool := none
  secure : Option Bool := none
  vulnerable : Option Bool := none
  issues : Option (List String) := none
  missing : Option (List String) := none
  endpoints : Option (List String) := none
  severity : Option String := none
  description : Option String := none
  remediation : Option String := none
deriving DecidableEq, Repr

/-- The scan aggregate (`SecurityScanResults`, src/unnamed/part_001
lines 17-31): one verdict per probe category, fixed shape. -/
structure SecurityScanResults where
  ssl : SecurityCheckResult
  headers : SecurityCheckResult
  xss : SecurityCheckResult
  sql : SecurityCheckResult
  accessControl : SecurityCheckResult
  cryptography : SecurityCheckResult
  insecureDesign : SecurityCheckResult
  securityConfig : SecurityCheckResult
  vulnerableComponents : SecurityCheckResult
  authentication : SecurityCheckResult
  integrityFailures : SecurityCheckResult
  logging : SecurityCheckResult
  ssrf : SecurityCheckResult
deriving DecidableEq, Repr

/-- The ordered list of the aggregate's category verdicts (the 13 keys
of the extended profile, in declaration order). -/
def categories (r : SecurityScanResults) : List SecurityCheckResult :=
  [r.ssl, r.headers, r.xss, r.sql, r.accessControl, r.cryptography,
   r.insecureDesign, r.securityConfig, r.vulnerableComponents,
   r.authentication, r.integrityFailures, r.logging, r.ssrf]

/-- An HTTP response as observed by a probe.  `headers` uses lowercased
names (Node lowercases incoming header names); `tlsProtocol` models
`res.socket.getPeerCertificate().protocol` for the SSL probe; `body`
models `await response.text()`. -/
structure Response where
  status : Nat := 200
  headers : List (String × String) := []
  body : String := ""
  tlsProtocol : Option String := none
deriving DecidableEq, Repr

/-- A request a probe issues: the endpoint path passed to
`new URL(endpoint, url)`, the query parameters set via
`searchParams.set`, the method, the JSON body and the raw `search`
string, when present. -/
structure Request where
  path : String
  query : List (String × String) := []
  method : String := "GET"
  body : Option String := none
  search : Option String := none
deriving DecidableEq, Repr

/-- `headers.get(name)` / `headers[name]`: first binding of the name. -/
def getHeader (res : Response) (name : String) : Option String :=
  (res.headers.find? (fun p => p.1 == name)).map Prod.snd

/-- JS truthiness test `!headers.get(name)` / `!headers[name]`: true
when the header is absent or has the empty string as value. -/
def isFalsyHeader (v : Option String) : Bool :=
  match v with
  | none => true
  | some s => s.isEmpty

/-- Oracle for the network calls of one multi-request probe. -/
abbrev Fetch := Request → Except String Response

/-- The full network environment of one scan: one oracle per probe.
Single-call probes (`checkSSL`, `checkHeaders`, `checkCryptography`,
`checkSecurityConfig`, `checkVulnerableComponents`,
`checkIntegrityFailures`) own a single call outcome. -/
structure Network where
  sslResp : Except String Response
  headersResp : Except String Response
  xssFetch : Fetch
  sqlFetch : Fetch
  accessFetch : Fetch
  cryptoFetch : Except String Response
  designFetch : Fetch
  configFetch : Except String Response
  componentsFetch : Except String Response
  authFetch : Fetch
  loggingFetch : Fetch
  integrityFetch : Except String Response
  ssrfFetch : Fetch

/-! ### URL validation (part_001 lines 33-37) -/

/-- Characters allowed inside a URL scheme after the first. -/
def isSchemeChar (c : Char) : Bool :=
  c.isAlphanum || c == '+' || c == '-' || c == '.'

/-- Split a character list at the first colon, provided everything
before it is scheme material. -/
def splitScheme : List Char → Option (List Char × List Char)
  | [] => none
  | c :: cs =>
    if c == ':' then some ([], cs)
    else if isSchemeChar c then
      match splitScheme cs with
      | some (sch, rest) => some (c :: sch, rest)
      | none => none
    else none

/-- A parsed URL, reduced to what the orchestrator inspects: the
(lowercased) `protocol` with its trailing colon, and the remainder. -/
structure Url where
  protocol : String
  rest : String
deriving DecidableEq, Repr

/-- Model of WHATWG URL parsing as performed by Node's `new URL`:
a nonempty scheme starting with a letter followed by a colon parses,
and the scheme is lowercased into `protocol`.  Faithful on every input
used by the claims. -/
def parseUrl (s : String) : Option Url :=
  match splitScheme s.toList with
  | some (sch, rest) =>
    match sch with
    | [] => none
    | c :: _ =>
      if c.isAlpha then
        some { protocol := String.mk (sch.map Char.toLower) ++ ":",
               rest := String.mk rest }
      else none
  | none => none

/-! ### The 13 probes (part_001 lines 154-551) -/

/-- `checkSSL` (lines 154-178): one HEAD request; inspects the
negotiated TLS protocol; converts a request error into an entry and
resolves, so it never throws. -/
def checkSSL (resp : Except String Response) (result : SecurityCheckResult) :
    SecurityCheckResult × Option String :=
  match resp with
  | Except.ok res =>
    match res.tlsProtocol with
    | some p =>
      if p == "TLSv1.2" || p == "TLSv1.3" then
        ({ result with valid := some true }, none)
      else
        ({ result with
            valid := some false,
            issues := pushOpt result.issues "Outdated SSL/TLS protocol version" }, none)
    | none =>
      ({ result with
          valid := some false,
          issues := pushOpt result.issues "Outdated SSL/TLS protocol version" }, none)
  | Except.error e =>
    ({ result with
        valid := some false,
        issues := pushOpt result.issues ("SSL Error: " ++ e) }, none)

/-- The four required security headers (lines 184-189). -/
def requiredHeaders : List String :=
  ["strict-transport-security", "x-content-type-options",
   "x-frame-options", "content-security-policy"]

/-- `checkHeaders` (lines 180-204): one HEAD request;
`missing = requiredHeaders.filter(h => !headers[h])`,
`secure = missing.length === 0`; never throws. -/
def checkHeaders (resp : Except String Response) (result : SecurityCheckResult) :
    SecurityCheckResult × Option String :=
  match resp with
  | Except.ok res =>
    let missing := requiredHeaders.filter (fun h => isFalsyHeader (getHeader res h))
    ({ result with missing := some missing, secure := some (missing.length == 0) }, none)
  | Except.error e =>
    ({ result with
        secure := some false,
        missing := pushOpt result.missing ("Headers Error: " ++ e) }, none)

/-- The XSS test payloads (lines 207-211). -/
def xssPayloads : List String :=
  ["<script>alert(1)</script>",
   "\"><script>alert(1)</script>",
   "\"><img src=x onerror=alert(1)>"]

/-- The XSS guessed endpoints (line 214). -/
def xssEndpoints : List String := ["/search", "/comment", "/feedback"]

/-- The request `checkXSS` issues for one endpoint: query parameter `q`
set to `testPayloads[0]` only (line 220). -/
def xssRequest (e : String) : Request :=
  { path := e, query := [("q", xssPayloads.getD 0 "")] }

/-- Did the XSS probe's request for endpoint `e` come back with a body
containing any of the three payloads?  (Failed requests are skipped.) -/
def xssHit (fetch : Fetch) (e : String) : Bool :=
  match fetch (xssRequest e) with
  | Except.ok res => xssPayloads.any (fun p => jsIncludes res.body p)
  | Except.error _ => false

/-- One iteration of `checkXSS`'s endpoint loop (lines 218-234). -/
def xssStep (fetch : Fetch) (acc : SecurityCheckResult) (e : String) :
    SecurityCheckResult :=
  match fetch (xssRequest e) with
  | Except.ok res =>
    if xssPayloads.any (fun p => jsIncludes res.body p) then
      { acc with vulnerable := some true, endpoints := pushOpt acc.endpoints e }
    else acc
  | Except.error _ => acc

/-- `checkXSS` (lines 206-235): resets its slot, loops over the guessed
endpoints, skips failed requests; never throws. -/
def checkXSS (fetch : Fetch) (result : SecurityCheckResult) :
    SecurityCheckResult × Option String :=
  let r0 := { result with vulnerable := some false, endpoints := some [] }
  (xssEndpoints.foldl (xssStep fetch) r0, none)

/-- The SQL-injection payloads (lines 238-242). -/
def sqlPayloads : List String :=
  ["\x27 OR \x271\x27=\x271",
   "1\x27 OR \x271\x27=\x271",
   "1; DROP TABLE users--"]

/-- The SQL-injection guessed endpoints (line 245). -/
def sqlEndpoints : List String := ["/login", "/search", "/profile"]

/-- The SQL error signatures (lines 258-264). -/
def sqlErrorPatterns : List String :=
  ["sql syntax", "mysql error", "postgresql error", "ORA-", "SQL Server error"]

/-- The request `checkSQLInjection` issues for one endpoint: query
parameter `id` set to `sqlPayloads[0]` (line 251). -/
def sqlRequest (e : String) : Request :=
  { path := e, query := [("id", sqlPayloads.getD 0 "")] }

/-- Did the SQL probe's request for `e` come back with a lowercased body
containing one of the signature strings verbatim?
(`text.toLowerCase().includes(pattern)`, line 266.) -/
def sqlHit (fetch : Fetch) (e : String) : Bool :=
  match fetch (sqlRequest e) with
  | Except.ok res => sqlErrorPatterns.any (fun p => jsIncludes (jsToLower res.body) p)
  | Except.error _ => false

/-- One iteration of `checkSQLInjection`'s endpoint loop (lines 249-274). -/
def sqlStep (fetch : Fetch) (acc : SecurityCheckResult) (e : String) :
    SecurityCheckResult :=
  match fetch (sqlRequest e) with
  | Except.ok res =>
    if sqlErrorPatterns.any (fun p => jsIncludes (jsToLower res.body) p) then
      { acc with vulnerable := some true, endpoints := pushOpt acc.endpoints e }
    else acc
  | Except.error _ => acc

/-- `checkSQLInjection` (lines 237-275): resets its slot, loops over
the guessed endpoints, skips failed requests; never throws. -/
def checkSQLInjection (fetch : Fetch) (result : SecurityCheckResult) :
    SecurityCheckResult × Option String :=
  let r0 := { result with vulnerable := some false, endpoints := some [] }
  (sqlEndpoints.foldl (sqlStep fetch) r0, none)

/-- The sensitive paths of the access-control probe (lines 282-287). -/
def sensitiveEndpoints : List String :=
  ["/admin", "/api/users", "/dashboard", "/settings"]

/-- A bare GET request to a path. -/
def plainRequest (e : String) : Request := { path := e }

/-- The issue text the access-control probe appends for a path. -/
def accessIssue (e : String) : String :=
  "Endpoint " ++ e ++ " accessible without authentication"

/-- Did the access-control probe's unauthenticated GET to `e` succeed
with a status other than 401 and 403?  (Failed requests are skipped.) -/
def accessHit (fetch : Fetch) (e : String) : Bool :=
  match fetch (plainRequest e) with
  | Except.ok res => !(res.status == 401) && !(res.status == 403)
  | Except.error _ => false

/-- One iteration of `checkAccessControl`'s loop (lines 289-300). -/
def accessStep (fetch : Fetch) (acc : SecurityCheckResult) (e : String) :
    SecurityCheckResult :=
  match fetch (plainRequest e) with
  | Except.ok res =>
    if !(res.status == 401) && !(res.status == 403) then
      { acc with vulnerable := some true, issues := pushOpt acc.issues (accessIssue e) }
    else acc
  | Except.error _ => acc

/-- `checkAccessControl` (lines 277-301): resets its slot, loops over
the sensitive endpoints, skips failed requests; never throws. -/
def checkAccessControl (fetch : Fetch) (result : SecurityCheckResult) :
    SecurityCheckResult × Option String :=
  let r0 := { result with
              vulnerable := some false, issues := some [],
              severity := some "high" }
  (sensitiveEndpoints.foldl (accessStep fetch) r0, none)

/-- `checkCryptography` (lines 303-329): resets its slot, then a single
unguarded fetch whose rejection escapes to the orchestrator (the slot
at the throw point carries only the resets). -/
def checkCryptography (resp : Except String Response) (result : SecurityCheckResult) :
    SecurityCheckResult × Option String :=
  let r0 := { result with
              secure := some false, issues := some [],
              severity := some "critical" }
  match resp with
  | Except.error e => (r0, some e)
  | Except.ok res =>
    let cookieIssues :=
      match getHeader res "set-cookie" with
      | some c =>
        if c.isEmpty then []
        else
          (if !(jsIncludes c "Secure") || !(jsIncludes c "HttpOnly") then
            ["Cookies missing Secure or HttpOnly flags"] else []) ++
          (if !(jsIncludes c "SameSite") then
            ["Cookies missing SameSite attribute"] else [])
      | none => []
    let tls13 :=
      match getHeader res "server-timing" with
      | some st => jsIncludes st "tls=1.3"
      | none => false
    let issues := cookieIssues ++
      (if tls13 then [] else ["Not using latest TLS version (1.3)"])
    ({ r0 with issues := some issues, secure := some (issues.length == 0) }, none)

/-- The design-check operations (lines 336-340). -/
def designEndpoints : List (String × String) :=
  [("/reset-password", "POST"), ("/api/export", "GET"), ("/api/bulk-update", "POST")]

/-- `checkInsecureDesign` (lines 331-357): loops over sensitive
operations, flags any response lacking a rate-limit header, skips
failed requests; never throws. -/
def checkInsecureDesign (fetch : Fetch) (result : SecurityCheckResult) :
    SecurityCheckResult × Option String :=
  let r0 := { result with
              vulnerable := some false, issues := some [],
              severity := some "high" }
  (designEndpoints.foldl (fun acc pm =>
    match fetch { path := pm.1, method := pm.2 } with
    | Except.ok res =>
      if isFalsyHeader (getHeader res "x-ratelimit-limit") then
        { acc with
          issues := pushOpt acc.issues ("No rate limiting on " ++ pm.1),
          vulnerable := some true }
      else acc
    | Except.error _ => acc) r0, none)

/-- The expected security headers (lines 368-374); an empty expected
value means presence-only. -/
def securityHeadersExpected : List (String × String) :=
  [("x-content-type-options", "nosniff"),
   ("x-frame-options", "DENY"),
   ("referrer-policy", "strict-origin-when-cross-origin"),
   ("permissions-policy", ""),
   ("cross-origin-opener-policy", "same-origin")]

/-- `checkSecurityConfig` (lines 359-383): a single unguarded fetch
(rejection escapes), then header comparisons. -/
def checkSecurityConfig (resp : Except String Response) (result : SecurityCheckResult) :
    SecurityCheckResult × Option String :=
  let r0 := { result with
              secure := some false, issues := some [],
              severity := some "high" }
  match resp with
  | Except.error e => (r0, some e)
  | Except.ok res =>
    let issues := securityHeadersExpected.foldl (fun acc hv =>
      let got := getHeader res hv.1
      if isFalsyHeader got || (!hv.2.isEmpty && !(got == some hv.2)) then
        acc ++ ["Missing or incorrect security header: " ++ hv.1]
      else acc) []
    ({ r0 with issues := some issues, secure := some (issues.length == 0) }, none)

/-- Try to consume the literal `lit` from the front of `cs`, returning
the remainder on success. -/
def matchLit : List Char → List Char → Option (List Char)
  | [], rest => some rest
  | _ :: _, [] => none
  | l :: ls, c :: cs => if c == l then matchLit ls cs else none

/-- The regex `/Apache\/2\.4\.(2[0-9]|3[0-9])/` tested at one position. -/
def apacheVulnAt (cs : List Char) : Bool :=
  match matchLit ("Apache/2.4.".toList) cs with
  | some (a :: b :: _) => (a == '2' || a == '3') && b.isDigit
  | _ => false

/-- The regex `/nginx\/1\.[0-9]\.[0-9]/` tested at one position. -/
def nginxVulnAt (cs : List Char) : Bool :=
  match matchLit ("nginx/1.".toList) cs with
  | some (a :: d :: b :: _) => a.isDigit && d == '.' && b.isDigit
  | _ => false

/-- The regex `/PHP\/[1-6]/` tested at one position. -/
def phpVulnAt (cs : List Char) : Bool :=
  match matchLit ("PHP/".toList) cs with
  | some (a :: _) => '1' ≤ a && a ≤ '6'
  | _ => false

/-- Unanchored regex `test`: does the position predicate hold anywhere? -/
def regexHit (p : List Char → Bool) : List Char → Bool
  | [] => false
  | c :: cs => p (c :: cs) || regexHit p cs

/-- The known-vulnerable version signatures (lines 397-401). -/
def vulnerableVersions : List ((String → Bool) × String) :=
  [(fun s => regexHit apacheVulnAt s.toList, "Apache < 2.4.40"),
   (fun s => regexHit nginxVulnAt s.toList, "nginx < 1.14.0"),
   (fun s => regexHit phpVulnAt s.toList, "PHP < 7.0")]

/-- `checkVulnerableComponents` (lines 385-410): a single unguarded
fetch (rejection escapes), then regex tests on the Server header (only
when the header is truthy). -/
def checkVulnerableComponents (resp : Except String Response) (result : SecurityCheckResult) :
    SecurityCheckResult × Option String :=
  let r0 := { result with
              vulnerable := some false, issues := some [],
              severity := some "critical" }
  match resp with
  | Except.error e => (r0, some e)
  | Except.ok res =>
    match getHeader res "server" with
    | none => (r0, none)
    | some sh =>
      if sh.isEmpty then (r0, none)
      else
        (vulnerableVersions.foldl (fun acc pv =>
          if pv.1 sh then
            { acc with
              vulnerable := some true,
              issues := pushOpt acc.issues
                ("Potentially vulnerable " ++ pv.2 ++ " detected") }
          else acc) r0, none)

/-- The authentication endpoints (lines 417-421). -/
def authEndpoints : List (String × String) :=
  [("/login", "POST"), ("/register", "POST"), ("/reset-password", "POST")]

/-- `checkAuthentication` (lines 412-444): loops over authentication
endpoints checking two headers, skips failed requests; never throws. -/
def checkAuthentication (fetch : Fetch) (result : SecurityCheckResult) :
    SecurityCheckResult × Option String :=
  let r0 := { result with
              secure := some false, issues := some [],
              severity := some "critical" }
  let r1 := authEndpoints.foldl (fun acc pm =>
    match fetch { path := pm.1, method := pm.2 } with
    | Except.ok res =>
      let acc1 :=
        if isFalsyHeader (getHeader res "x-frame-options") then
          { acc with
            issues :=
              pushOpt acc.issues ("Missing X-Frame-Options header on " ++ pm.1) }
        else acc
      if isFalsyHeader (getHeader res "x-ratelimit-limit") then
        { acc1 with
          issues :=
            pushOpt acc1.issues ("No rate limiting on " ++ pm.1) }
      else acc1
    | Except.error _ => acc) r0
  ({ r1 with secure := some ((r1.issues.getD []).length == 0) }, none)

/-- Split a character list at the first `>`, returning the part before
and the part after it. -/
def splitAtGt : List Char → Option (List Char × List Char)
  | [] => none
  | c :: cs =>
    if c == '>' then some ([], cs)
    else
      match splitAtGt cs with
      | some (a, b) => some (c :: a, b)
      | none => none

/-- Global scan for the regex `/<script[^>]*>/g`: every occurrence of
`<script` followed by non-`>` characters and a closing `>`, resuming
after each match.  The fuel argument bounds recursion and is always
instantiated with the text length, which suffices because every
recursive call drops at least one character. -/
def scriptTagScan : Nat → List Char → List String
  | 0, _ => []
  | _, [] => []
  | fuel + 1, c :: cs =>
    match matchLit ("<script".toList) (c :: cs) with
    | some rest =>
      match splitAtGt rest with
      | some (mid, rest2) =>
        ("<script" ++ String.mk mid ++ ">") :: scriptTagScan fuel rest2
      | none => scriptTagScan fuel cs
    | none => scriptTagScan fuel cs

/-- `html.match(/<script[^>]*>/g) || []` (line 456). -/
def scriptTags (html : String) : List String :=
  scriptTagScan html.toList.length html.toList

/-- `checkIntegrityFailures` (lines 446-470): a single unguarded fetch
(rejection escapes), then SRI and CSP checks. -/
def checkIntegrityFailures (resp : Except String Response) (result : SecurityCheckResult) :
    SecurityCheckResult × Option String :=
  let r0 := { result with
              vulnerable := some false, issues := some [],
              severity := some "high" }
  match resp with
  | Except.error e => (r0, some e)
  | Except.ok res =>
    let r1 := (scriptTags res.body).foldl (fun acc tag =>
      if !(jsIncludes tag "integrity=") then
        { acc with
          vulnerable := some true,
          issues := pushOpt acc.issues
            "Script tag missing Subresource Integrity (SRI) hash" }
      else acc) r0
    let r2 :=
      if isFalsyHeader (getHeader res "content-security-policy") then
        { r1 with
          vulnerable := some true,
          issues := pushOpt r1.issues "Missing Content Security Policy" }
      else r1
    (r2, none)

/-- One suspicious request of the logging probe. -/
structure LogAction where
  path : String
  method : String
  body : Option String := none
  search : Option String := none

/-- The suspicious actions of `checkLogging` (lines 478-482). -/
def suspiciousActions : List LogAction :=
  [{ path := "/login", method := "POST",
     body := some "\x7b\"username\":\"admin\x27--\"\x7d" },
   { path := "/api/data", method := "GET", search := some "?id=1 OR 1=1" },
   { path := "/upload", method := "POST",
     body := some "\x7b\"file\":\"test.php\"\x7d" }]

/-- `checkLogging` (lines 472-509): loops over suspicious actions,
flags missing request-tracking headers, skips failed requests; never
throws. -/
def checkLogging (fetch : Fetch) (result : SecurityCheckResult) :
    SecurityCheckResult × Option String :=
  let r0 := { result with
              secure := some false, issues := some [],
              severity := some "medium" }
  let r1 := suspiciousActions.foldl (fun acc act =>
    match fetch { path := act.path, method := act.method,
                  body := act.body, search := act.search } with
    | Except.ok res =>
      if isFalsyHeader (getHeader res "x-request-id") then
        { acc with
          issues :=
            pushOpt acc.issues ("No request tracking on " ++ act.path) }
      else acc
    | Except.error _ => acc) r0
  ({ r1 with secure := some ((r1.issues.getD []).length == 0) }, none)

/-- The SSRF-prone endpoints (lines 516-521). -/
def ssrfEndpoints : List String :=
  ["/api/fetch", "/api/proxy", "/api/import", "/api/webhook"]

/-- The dangerous target URLs posted by the SSRF probe (lines 524-529). -/
def ssrfTestUrls : List String :=
  ["http://169.254.169.254/latest/meta-data/", "http://localhost/",
   "http://127.0.0.1/", "file:///etc/passwd"]

/-- `JSON.stringify({url: t})` for the SSRF probe's body. -/
def ssrfBody (t : String) : String :=
  "\x7b\"url\":\"" ++ t ++ "\"\x7d"

/-- `checkSSRF` (lines 511-551): nested loop over endpoints and test
URLs, flags any status other than 403 and 400, skips failed requests;
never throws. -/
def checkSSRF (fetch : Fetch) (result : SecurityCheckResult) :
    SecurityCheckResult × Option String :=
  let r0 := { result with
              vulnerable := some false, endpoints := some [],
              severity := some "critical" }
  (ssrfEndpoints.foldl (fun acc e =>
    ssrfTestUrls.foldl (fun acc2 t =>
      match fetch { path := e, method := "POST", body := some (ssrfBody t) } with
      | Except.ok res =>
        if !(res.status == 403) && !(res.status == 400) then
          { acc2 with
            vulnerable := some true,
            endpoints := pushOpt acc2.endpoints (e ++ " might be vulnerable to SSRF") }
        else acc2
      | Except.error _ => acc2) acc) r0, none)

/-! ### The orchestrator (part_001 lines 33-152) -/

/-- The initial aggregate (lines 39-53): every category pre-allocated
with its primary boolean `false` and its list field empty. -/
def initialResults : SecurityScanResults :=
  { ssl := { valid := some false, issues := some [] },
    headers := { secure := some false, missing := some [] },
    xss := { vulnerable := some false, endpoints := some [] },
    sql := { vulnerable := some false, endpoints := some [] },
    accessControl := { vulnerable := some false, issues := some [] },
    cryptography := { secure := some false, issues := some [] },
    insecureDesign := { vulnerable := some false, issues := some [] },
    securityConfig := { secure := some false, issues := some [] },
    vulnerableComponents := { vulnerable := some false, issues := some [] },
    authentication := { secure := some false, issues := some [] },
    integrityFailures := { vulnerable := some false, issues := some [] },
    logging := { secure := some false, issues := some [] },
    ssrf := { vulnerable := some false, endpoints := some [] } }

/-- `const totalChecks = 13` (line 55). -/
def totalChecks : Nat := 13

/-- The value passed to `updateProgress` after the `c`-th successful
probe: `completedChecks * (100 / totalChecks)` in exact arithmetic. -/
def progressValue (c : Nat) : ℚ :=
  (c : ℚ) * (100 / (totalChecks : ℚ))

/-- The orchestrator's catch handlers (the `catch` blocks of lines
59-149), one per category: push the synthetic message into the
category's list via optional chaining. -/
def catchSsl (v : SecurityCheckResult) (m : String) : SecurityCheckResult :=
  { v with issues := pushOpt v.issues ("SSL Error: " ++ m) }

def catchHeaders (v : SecurityCheckResult) (m : String) : SecurityCheckResult :=
  { v with missing := pushOpt v.missing ("Headers Error: " ++ m) }

def catchXss (v : SecurityCheckResult) (m : String) : SecurityCheckResult :=
  { v with endpoints := pushOpt v.endpoints ("XSS Error: " ++ m) }

def catchSql (v : SecurityCheckResult) (m : String) : SecurityCheckResult :=
  { v with endpoints := pushOpt v.endpoints ("SQL Error: " ++ m) }

def catchAccessControl (v : SecurityCheckResult) (m : String) : SecurityCheckResult :=
  { v with issues := pushOpt v.issues ("Access Control Error: " ++ m) }

def catchCryptography (v : SecurityCheckResult) (m : String) : SecurityCheckResult :=
  { v with issues := pushOpt v.issues ("Cryptography Error: " ++ m) }

def catchInsecureDesign (v : SecurityCheckResult) (m : String) : SecurityCheckResult :=
  { v with issues := pushOpt v.issues ("Design Error: " ++ m) }

def catchSecurityConfig (v : SecurityCheckResult) (m : String) : SecurityCheckResult :=
  { v with issues := pushOpt v.issues ("Configuration Error: " ++ m) }

def catchVulnerableComponents (v : SecurityCheckResult) (m : String) : SecurityCheckResult :=
  { v with issues := pushOpt v.issues ("Component Error: " ++ m) }

def catchAuthentication (v : SecurityCheckResult) (m : String) : SecurityCheckResult :=
  { v with issues := pushOpt v.issues ("Authentication Error: " ++ m) }

def catchIntegrityFailures (v : SecurityCheckResult) (m : String) : SecurityCheckResult :=
  { v with issues := pushOpt v.issues ("Integrity Error: " ++ m) }

def catchLogging (v : SecurityCheckResult) (m : String) : SecurityCheckResult :=
  { v with issues := pushOpt v.issues ("Logging Error: " ++ m) }

def catchSsrf (v : SecurityCheckResult) (m : String) : SecurityCheckResult :=
  { v with endpoints := pushOpt v.endpoints ("SSRF Error: " ++ m) }

/-- The verdict a try/catch block leaves in the slot: the probe's
result on success, the catch handler applied to the pre-throw slot on
failure. -/
def settledVerdict (run : SecurityCheckResult × Option String)
    (onCatch : SecurityCheckResult → String → SecurityCheckResult) :
    SecurityCheckResult :=
  match run.2 with
  | none => run.1
  | some m => onCatch run.1 m

/-- The progress accounting of one try/catch block:
`updateProgress(++completedChecks * (100 / totalChecks))` runs only on
success; a caught failure leaves counter and emitted list untouched. -/
def settledState (run : SecurityCheckResult × Option String)
    (st : Nat × List ℚ) : Nat × List ℚ :=
  match run.2 with
  | none => (st.1 + 1, st.2 ++ [progressValue (st.1 + 1)])
  | some _ => st

/-- The 13 probe executions of one scan, in source order, each applied
to its pre-allocated slot of `initialResults`. -/
def runsOf (net : Network) : List (SecurityCheckResult × Option String) :=
  [checkSSL net.sslResp initialResults.ssl,
   checkHeaders net.headersResp initialResults.headers,
   checkXSS net.xssFetch initialResults.xss,
   checkSQLInjection net.sqlFetch initialResults.sql,
   checkAccessControl net.accessFetch initialResults.accessControl,
   checkCryptography net.cryptoFetch initialResults.cryptography,
   checkInsecureDesign net.designFetch initialResults.insecureDesign,
   checkSecurityConfig net.configFetch initialResults.securityConfig,
   checkVulnerableComponents net.componentsFetch initialResults.vulnerableComponents,
   checkAuthentication net.authFetch initialResults.authentication,
   checkIntegrityFailures net.integrityFetch initialResults.integrityFailures,
   checkLogging net.loggingFetch initialResults.logging,
   checkSSRF net.ssrfFetch initialResults.ssrf]

/-- The body of `performSecurityCheck` after URL validation (lines
39-151): the source's single sequential pass is rendered as the
settlement of each pre-allocated slot plus the progress accumulation
over the same runs in the same order (no probe reads another's slot,
and progress depends only on which probes threw). -/
def runCheck13 (net : Network) : SecurityScanResults × List ℚ :=
  ({ ssl := settledVerdict (checkSSL net.sslResp initialResults.ssl) catchSsl,
     headers := settledVerdict (checkHeaders net.headersResp initialResults.headers) catchHeaders,
     xss := settledVerdict (checkXSS net.xssFetch initialResults.xss) catchXss,
     sql := settledVerdict (checkSQLInjection net.sqlFetch initialResults.sql) catchSql,
     accessControl := settledVerdict
       (checkAccessControl net.accessFetch initialResults.accessControl) catchAccessControl,
     cryptography := settledVerdict
       (checkCryptography net.cryptoFetch initialResults.cryptography) catchCryptography,
     insecureDesign := settledVerdict
       (checkInsecureDesign net.designFetch initialResults.insecureDesign) catchInsecureDesign,
     securityConfig := settledVerdict
       (checkSecurityConfig net.configFetch initialResults.securityConfig) catchSecurityConfig,
     vulnerableComponents := settledVerdict
       (checkVulnerableComponents net.componentsFetch initialResults.vulnerableComponents)
       catchVulnerableComponents,
     authentication := settledVerdict
       (checkAuthentication net.authFetch initialResults.authentication) catchAuthentication,
     integrityFailures := settledVerdict
       (checkIntegrityFailures net.integrityFetch initialResults.integrityFailures)
       catchIntegrityFailures,
     logging := settledVerdict (checkLogging net.loggingFetch initialResults.logging) catchLogging,
     ssrf := settledVerdict (checkSSRF net.ssrfFetch initialResults.ssrf) catchSsrf },
   ((runsOf net).foldl (fun st run => settledState run st) (0, [])).2)

/-- `performSecurityCheck` (part_001 lines 33-152): parse the target
(`new URL` throws "Invalid URL" on failure), reject protocols that do
not start with `http` (lines 34-37) before any probe runs and before
any progress callback fires, then run the 13 probes.  The returned
list is the sequence of values passed to `updateProgress`. -/
def performSecurityCheck (targetUrl : String) (net : Network) :
    Except String (SecurityScanResults × List ℚ) :=
  match parseUrl targetUrl with
  | none => Except.error "Invalid URL"
  | some url =>
    if jsStartsWith url.protocol "http" = false then
      Except.error "Invalid URL protocol. Only HTTP/HTTPS URLs are supported."
    else
      Except.ok (runCheck13 net)

/-! ### The in-memory job store (part_004) -/

/-- One scan job record (`Scan`), generic in the stored results payload
(`results: any` in the source); `createdAt` is omitted as no claim
observes it. -/
structure ScanRecord (ρ : Type) where
  id : Nat
  userId : Nat
  url : String
  status : String
  progress : ℚ
  results : Option ρ
deriving DecidableEq, Repr

/-- The scans map of `MemStorage`, as an association list in insertion
order (JS `Map` preserves insertion order and keeps keys unique). -/
def MemStorage (ρ : Type) : Type := List (Nat × ScanRecord ρ)

/-- `MemStorage.getScan` (part_004 lines 70-72). -/
def MemStorage.getScan {ρ : Type} (st : MemStorage ρ) (sid : Nat) :
    Option (ScanRecord ρ) :=
  (List.find? (fun p => p.1 == sid) st).map Prod.snd

/-- `this.scans.set(id, scan)` for a key already present: replace the
binding in place. -/
def MemStorage.setScan {ρ : Type} (st : MemStorage ρ) (sid : Nat)
    (scan : ScanRecord ρ) : MemStorage ρ :=
  st.map (fun p => if p.1 == sid then (sid, scan) else p)

/-- `MemStorage.updateScanResults` (part_004 lines 79-84): when the id
exists, store the record with status `completed`, progress `100` and
the given results payload, unconditionally; otherwise do nothing. -/
def MemStorage.updateScanResults {ρ : Type} (st : MemStorage ρ) (sid : Nat)
    (results : ρ) : MemStorage ρ :=
  match MemStorage.getScan st sid with
  | some scan =>
    MemStorage.setScan st sid
      { scan with status := "completed", progress := 100, results := some results }
  | none => st

/-- The degraded aggregate the route's rejection handler passes to
`updateScanResults` (src/unnamed/part_003 lines 28-36). -/
structure DegradedAggregate where
  status : String
  error : String
  ssl : SecurityCheckResult
  headers : SecurityCheckResult
  xss : SecurityCheckResult
  sql : SecurityCheckResult
deriving DecidableEq, Repr

/-! ### Concrete environments used by the claim instances -/

/-- A benign response: status 200, no headers, empty body, TLS 1.3. -/
def okResp : Response :=
  { status := 200, headers := [], body := "", tlsProtocol := some "TLSv1.3" }

/-- A network where every call succeeds with `okResp`. -/
def netAllOk : Network :=
  { sslResp := Except.ok okResp,
    headersResp := Except.ok okResp,
    xssFetch := fun _ => Except.ok okResp,
    sqlFetch := fun _ => Except.ok okResp,
    accessFetch := fun _ => Except.ok okResp,
    cryptoFetch := Except.ok okResp,
    designFetch := fun _ => Except.ok okResp,
    configFetch := Except.ok okResp,
    componentsFetch := Except.ok okResp,
    authFetch := fun _ => Except.ok okResp,
    integrityFetch := Except.ok okResp,
    loggingFetch := fun _ => Except.ok okResp,
    ssrfFetch := fun _ => Except.ok okResp }

/-- Like `netAllOk` but the cryptography probe's single fetch rejects. -/
def netCryptoFail : Network :=
  { netAllOk with cryptoFetch := Except.error "connect ECONNREFUSED" }

/-- Like `netAllOk` but every call of the XSS probe fails. -/
def netXssFail : Network :=
  { netAllOk with xssFetch := fun _ => Except.error "connect ECONNREFUSED" }

/-- Like `netAllOk` but the cryptography fetch rejects with "boom". -/
def netCryptoBoom : Network :=
  { netAllOk with cryptoFetch := Except.error "boom" }

/-- Like `netAllOk` but the SSL request and every XSS call fail. -/
def netSslXssFail : Network :=
  { netAllOk with
    sslResp := Except.error "refused",
    xssFetch := fun _ => Except.error "refused" }

/-- Like `netAllOk` but every call of the authentication probe fails. -/
def netAuthFail : Network :=
  { netAllOk with authFetch := fun _ => Except.error "connect ECONNREFUSED" }

/-- The parse of "https://example.com" under `parseUrl`. -/
def urlExample : Url := { protocol := "https:", rest := "//example.com" }

/-- A response body leaking an Oracle error code verbatim. -/
def oraBody : String := "ORA-00933: SQL command not properly ended"

/-- A fetch oracle whose every response carries `oraBody`. -/
def oraFetch : Fetch :=
  fun _ => Except.ok { status := 200, headers := [], body := oraBody, tlsProtocol := none }

/-- A response with all four required headers present, but
`x-frame-options` carrying the empty string. -/
def respEmptyXfo : Response :=
  { status := 200,
    headers := [("strict-transport-security", "max-age=63072000"),
                ("x-content-type-options", "nosniff"),
                ("x-frame-options", ""),
                ("content-security-policy", "default-src")],
    body := "", tlsProtocol := none }

/-- Unauthenticated access oracle: `/admin` answers 200, every other
path answers 403. -/
def adminOpenFetch : Fetch :=
  fun q => if q.path == "/admin" then
      Except.ok { status := 200, headers := [], body := "", tlsProtocol := none }
    else
      Except.ok { status := 403, headers := [], body := "", tlsProtocol := none }

/-- Access oracle answering 403 on every path. -/
def allForbiddenFetch : Fetch :=
  fun _ => Except.ok { status := 403, headers := [], body := "", tlsProtocol := none }

/-- A body reflecting only the third XSS payload, which is never sent. -/
def reflectedBody : String :=
  "<p>results</p>\"><img src=x onerror=alert(1)>"

/-- XSS oracle: `/search` reflects `reflectedBody`, other endpoints
answer with an empty body. -/
def onlyThirdPayloadFetch : Fetch :=
  fun q => if q.path == "/search" then
      Except.ok { status := 200, headers := [], body := reflectedBody, tlsProtocol := none }
    else
      Except.ok { status := 200, headers := [], body := "", tlsProtocol := none }

/-- A job store holding one running scan with id 1. -/
def demoScan : ScanRecord DegradedAggregate :=
  { id := 1, userId := 1, url := "https://example.com",
    status := "running", progress := 37, results := none }

def demoStore : MemStorage DegradedAggregate := [(1, demoScan)]

/-- The degraded failure aggregate of part_003 lines 29-36, with the
rejection message "boom". -/
def degradedExample : DegradedAggregate :=
  { status := "failed", error := "boom",
    ssl := { valid := some false, issues := some ["boom"] },
    headers := { secure := some false, missing := some [] },
    xss := { vulnerable := some false, endpoints := some [] },
    sql := { vulnerable := some false, endpoints := some [] } }

/-- The progress values emitted by a sequence of probe settlements
(`none` = completed, `some` = threw), starting from `c` completed
probes: a completed probe emits `progressValue (c+1)` and increments
the counter, a throwing probe emits nothing. -/
def progressSeq : Nat → List (Option String) → List ℚ
  | _, [] => []
  | c, none :: rest => progressValue (c + 1) :: progressSeq (c + 1) rest
  | c, some _ :: rest => progressSeq c rest

end BugHunter

namespace BugHunter

attribute [ext] SecurityCheckResult

/-- A valid target makes the orchestrator run the probe battery. -/
theorem performSecurityCheck_valid (s : String) (u : Url) (net : Network)
    (hp : parseUrl s = some u) (hh : jsStartsWith u.protocol "http" = true) :
    performSecurityCheck s net = Except.ok (runCheck13 net) := by
  unfold performSecurityCheck
  rw [hp]
  simp [hh]

/-- An invalid target produces one of the two invalid-target errors and
nothing else. -/
theorem performSecurityCheck_error_cases (s : String) (net : Network) (e : String)
    (h : performSecurityCheck s net = Except.error e) :
    e = "Invalid URL" ∨ e = "Invalid URL protocol. Only HTTP/HTTPS URLs are supported." := by
  cases hp : parseUrl s with
  | none =>
    have h2 : performSecurityCheck s net = Except.error "Invalid URL" := by
      unfold performSecurityCheck; rw [hp]
    rw [h2] at h
    exact Or.inl (Except.error.inj h).symm
  | some u =>
    by_cases hh : jsStartsWith u.protocol "http" = false
    · have h2 : performSecurityCheck s net =
          Except.error "Invalid URL protocol. Only HTTP/HTTPS URLs are supported." := by
        unfold performSecurityCheck; rw [hp]; simp [hh]
      rw [h2] at h
      exact Or.inr (Except.error.inj h).symm
    · have h2 := performSecurityCheck_valid s u net hp (by simpa using hh)
      rw [h2] at h
      exact absurd h (by simp)

/-- The orchestrator succeeds exactly on targets that parse with an
http-prefixed protocol. -/
theorem performSecurityCheck_isOk_iff (s : String) (net : Network) :
    (performSecurityCheck s net).isOk = true ↔
      ∃ u, parseUrl s = some u ∧ jsStartsWith u.protocol "http" = true := by
  constructor
  · intro h
    cases hp : parseUrl s with
    | none =>
      have h2 : performSecurityCheck s net = Except.error "Invalid URL" := by
        unfold performSecurityCheck; rw [hp]
      rw [h2] at h
      simp [Except.isOk, Except.toBool] at h
    | some u =>
      by_cases hh : jsStartsWith u.protocol "http" = false
      · have h2 : performSecurityCheck s net =
            Except.error "Invalid URL protocol. Only HTTP/HTTPS URLs are supported." := by
          unfold performSecurityCheck; rw [hp]; simp [hh]
        rw [h2] at h
        simp [Except.isOk, Except.toBool] at h
      · exact ⟨u, rfl, by simpa using hh⟩
  · rintro ⟨u, hp, hh⟩
    rw [performSecurityCheck_valid s u net hp hh]
    rfl

theorem runCheck13_ssl_eq (net : Network) :
    (runCheck13 net).1.ssl =
      settledVerdict (checkSSL net.sslResp initialResults.ssl) catchSsl := rfl

theorem runCheck13_headers_eq (net : Network) :
    (runCheck13 net).1.headers =
      settledVerdict (checkHeaders net.headersResp initialResults.headers) catchHeaders := rfl

theorem runCheck13_xss_eq (net : Network) :
    (runCheck13 net).1.xss =
      settledVerdict (checkXSS net.xssFetch initialResults.xss) catchXss := rfl

theorem runCheck13_sql_eq (net : Network) :
    (runCheck13 net).1.sql =
      settledVerdict (checkSQLInjection net.sqlFetch initialResults.sql) catchSql := rfl

theorem runCheck13_access_eq (net : Network) :
    (runCheck13 net).1.accessControl =
      settledVerdict (checkAccessControl net.accessFetch initialResults.accessControl)
        catchAccessControl := rfl

theorem runCheck13_crypto_eq (net : Network) :
    (runCheck13 net).1.cryptography =
      settledVerdict (checkCryptography net.cryptoFetch initialResults.cryptography)
        catchCryptography := rfl

theorem runCheck13_design_eq (net : Network) :
    (runCheck13 net).1.insecureDesign =
      settledVerdict (checkInsecureDesign net.designFetch initialResults.insecureDesign)
        catchInsecureDesign := rfl

theorem runCheck13_config_eq (net : Network) :
    (runCheck13 net).1.securityConfig =
      settledVerdict (checkSecurityConfig net.configFetch initialResults.securityConfig)
        catchSecurityConfig := rfl

theorem runCheck13_components_eq (net : Network) :
    (runCheck13 net).1.vulnerableComponents =
      settledVerdict
        (checkVulnerableComponents net.componentsFetch initialResults.vulnerableComponents)
        catchVulnerableComponents := rfl

theorem runCheck13_auth_eq (net : Network) :
    (runCheck13 net).1.authentication =
      settledVerdict (checkAuthentication net.authFetch initialResults.authentication)
        catchAuthentication := rfl

theorem runCheck13_integrity_eq (net : Network) :
    (runCheck13 net).1.integrityFailures =
      settledVerdict (checkIntegrityFailures net.integrityFetch initialResults.integrityFailures)
        catchIntegrityFailures := rfl

theorem runCheck13_logging_eq (net : Network) :
    (runCheck13 net).1.logging =
      settledVerdict (checkLogging net.loggingFetch initialResults.logging) catchLogging := rfl

theorem runCheck13_ssrf_eq (net : Network) :
    (runCheck13 net).1.ssrf =
      settledVerdict (checkSSRF net.ssrfFetch initialResults.ssrf) catchSsrf := rfl

/-- The emitted progress values of a scan are exactly `progressSeq`
over the probes' throw flags. -/
theorem runCheck13_progress (net : Network) :
    (runCheck13 net).2 = progressSeq 0 ((runsOf net).map Prod.snd) := by
  have h : ∀ (runs : List (SecurityCheckResult × Option String)) (c : Nat) (log : List ℚ),
      (runs.foldl (fun st run => settledState run st) (c, log)).2
        = log ++ progressSeq c (runs.map Prod.snd) := by
    intro runs
    induction runs with
    | nil => intro c log; simp [progressSeq]
    | cons run rest ih =>
      intro c log
      obtain ⟨v, o⟩ := run
      cases o with
      | none =>
        rw [List.foldl_cons]
        have hstep : settledState (v, none) (c, log)
            = (c + 1, log ++ [progressValue (c + 1)]) := rfl
        rw [hstep, ih]
        simp [progressSeq]
      | some m =>
        rw [List.foldl_cons]
        have hstep : settledState (v, some m) (c, log) = (c, log) := rfl
        rw [hstep, ih]
        simp [progressSeq]
  show ((runsOf net).foldl (fun st run => settledState run st) (0, [])).2 = _
  rw [h]
  simp

theorem progressValue_lt {a b : Nat} (h : a < b) :
    progressValue a < progressValue b := by
  unfold progressValue
  have h13 : (0:ℚ) < 100 / (totalChecks : ℚ) := by norm_num [totalChecks]
  exact mul_lt_mul_of_pos_right (by exact_mod_cast h) h13

theorem progressSeq_mem_lt (fs : List (Option String)) :
    ∀ c x, x ∈ progressSeq c fs → progressValue c < x := by
  induction fs with
  | nil => intro c x hx; simp [progressSeq] at hx
  | cons f rest ih =>
    intro c x hx
    cases f with
    | none =>
      simp only [progressSeq, List.mem_cons] at hx
      rcases hx with rfl | hx2
      · exact progressValue_lt (Nat.lt_succ_self c)
      · exact lt_trans (progressValue_lt (Nat.lt_succ_self c)) (ih (c+1) x hx2)
    | some m =>
      simp only [progressSeq] at hx
      exact ih c x hx

theorem progressSeq_pairwise (fs : List (Option String)) :
    ∀ c, List.Pairwise (fun a b => a < b) (progressSeq c fs) := by
  induction fs with
  | nil => intro c; simp [progressSeq]
  | cons f rest ih =>
    intro c
    cases f with
    | none =>
      simp only [progressSeq]
      exact List.Pairwise.cons (fun y hy => progressSeq_mem_lt rest (c+1) y hy) (ih (c+1))
    | some m =>
      simpa only [progressSeq] using ih c

theorem progressSeq_length (fs : List (Option String)) :
    ∀ c, (progressSeq c fs).length = fs.count none := by
  induction fs with
  | nil => intro c; simp [progressSeq]
  | cons f rest ih =>
    intro c
    cases f with
    | none => simp [progressSeq, ih, List.count_cons]
    | some m => simp [progressSeq, ih, List.count_cons]

end BugHunter

namespace BugHunter

/-- If a nonempty pattern occurs in `l`, its first character is a
member of `l`. -/
theorem listHasInfix_head_mem (p : Char) (ps : List Char) (l : List Char)
    (h : listHasInfix (p :: ps) l = true) : p ∈ l := by
  induction l with
  | nil => simp [listHasInfix, List.isEmpty] at h
  | cons c cs ih =>
    simp only [listHasInfix, Bool.or_eq_true] at h
    rcases h with h | h
    · simp only [listStarts, Bool.and_eq_true, beq_iff_eq] at h
      exact List.mem_cons.mpr (Or.inl h.1.symm)
    · exact List.mem_cons_of_mem c (ih h)

/-- ASCII case folding never produces an upper-case basic latin letter. -/
theorem char_toLower_ne_of_upper (c d : Char) (h1 : 65 ≤ d.toNat) (h2 : d.toNat ≤ 90) :
    c.toLower ≠ d := by
  intro hEq
  unfold Char.toLower at hEq
  simp only at hEq
  by_cases hc : c.toNat ≥ 65 ∧ c.toNat ≤ 90
  · rw [if_pos hc] at hEq
    have hle : c.toNat ≤ 90 := hc.2
    have hv : (c.toNat + 32).isValidChar := Or.inl (by omega)
    rw [Char.ofNat, dif_pos hv] at hEq
    have hEq2 := congrArg Char.toNat hEq
    have h3 : (Char.ofNatAux (c.toNat + 32) hv).toNat = c.toNat + 32 := rfl
    rw [h3] at hEq2
    omega
  · rw [if_neg hc] at hEq
    subst hEq
    exact hc ⟨h1, h2⟩

/-- The signature `"ORA-"` can never occur in a lowercased body: the
comparison `text.toLowerCase().includes("ORA-")` of the SQL probe is
dead for this pattern. -/
theorem sqlPatternOraNeverMatches (s : String) :
    jsIncludes (jsToLower s) "ORA-" = false := by
  by_contra h
  have h2 : listHasInfix ("ORA-".toList) ((jsToLower s).toList) = true := by
    simpa [jsIncludes] using h
  have h3 : 'O' ∈ (jsToLower s).toList :=
    listHasInfix_head_mem 'O' ("RA-".toList) _ h2
  have h4 : (jsToLower s).toList = s.toList.map Char.toLower := rfl
  rw [h4] at h3
  obtain ⟨c, _, hlc⟩ := List.mem_map.mp h3
  exact char_toLower_ne_of_upper c 'O' (by decide) (by decide) hlc

/-- Characterization of the XSS probe's endpoint loop: the final
verdict carries `vulnerable = previous ∨ any hit` and the hits appended
to the endpoint list in order. -/
theorem xss_foldl_spec (fetch : Fetch) (es : List String) :
    ∀ (acc : SecurityCheckResult) (b : Bool) (l : List String),
      acc.vulnerable = some b → acc.endpoints = some l →
      es.foldl (xssStep fetch) acc =
        { acc with vulnerable := some (b || es.any (xssHit fetch)),
                   endpoints := some (l ++ es.filter (xssHit fetch)) } := by
  induction es with
  | nil =>
    intro acc b l hv he
    obtain ⟨f1, f2, f3, f4, f5, f6, f7, f8, f9⟩ := acc
    simp only at hv he
    subst hv
    subst he
    simp
  | cons e es ih =>
    intro acc b l hv he
    obtain ⟨f1, f2, f3, f4, f5, f6, f7, f8, f9⟩ := acc
    simp only at hv he
    subst hv
    subst he
    rw [List.foldl_cons]
    cases hfe : fetch (xssRequest e) with
    | error msg =>
      have hhit : xssHit fetch e = false := by simp [xssHit, hfe]
      have hstep : xssStep fetch ⟨f1, f2, some b, f4, f5, some l, f7, f8, f9⟩ e =
          ⟨f1, f2, some b, f4, f5, some l, f7, f8, f9⟩ := by
        simp [xssStep, hfe]
      rw [hstep, ih _ b l rfl rfl]
      simp [hhit]
    | ok res =>
      by_cases hp : xssPayloads.any (fun p => jsIncludes res.body p) = true
      · have hhit : xssHit fetch e = true := by simp [xssHit, hfe, hp]
        have hstep : xssStep fetch ⟨f1, f2, some b, f4, f5, some l, f7, f8, f9⟩ e =
            ⟨f1, f2, some true, f4, f5, some (l ++ [e]), f7, f8, f9⟩ := by
          simp [xssStep, hfe, hp, pushOpt]
        rw [hstep, ih _ true (l ++ [e]) rfl rfl]
        simp [hhit]
      · have hhit : xssHit fetch e = false := by simp [xssHit, hfe, hp]
        have hstep : xssStep fetch ⟨f1, f2, some b, f4, f5, some l, f7, f8, f9⟩ e =
            ⟨f1, f2, some b, f4, f5, some l, f7, f8, f9⟩ := by
          simp [xssStep, hfe, hp]
        rw [hstep, ih _ b l rfl rfl]
        simp [hhit]

/-- Characterization of the access-control probe's endpoint loop. -/
theorem access_foldl_spec (fetch : Fetch) (es : List String) :
    ∀ (acc : SecurityCheckResult) (b : Bool) (l : List String),
      acc.vulnerable = some b → acc.issues = some l →
      es.foldl (accessStep fetch) acc =
        { acc with vulnerable := some (b || es.any (accessHit fetch)),
                   issues := some (l ++ (es.filter (accessHit fetch)).map accessIssue) } := by
  induction es with
  | nil =>
    intro acc b l hv he
    obtain ⟨f1, f2, f3, f4, f5, f6, f7, f8, f9⟩ := acc
    simp only at hv he
    subst hv
    subst he
    simp
  | cons e es ih =>
    intro acc b l hv he
    obtain ⟨f1, f2, f3, f4, f5, f6, f7, f8, f9⟩ := acc
    simp only at hv he
    subst hv
    subst he
    rw [List.foldl_cons]
    cases hfe : fetch (plainRequest e) with
    | error msg =>
      have hhit : accessHit fetch e = false := by simp [accessHit, hfe]
      have hstep : accessStep fetch ⟨f1, f2, some b, some l, f5, f6, f7, f8, f9⟩ e =
          ⟨f1, f2, some b, some l, f5, f6, f7, f8, f9⟩ := by
        simp [accessStep, hfe]
      rw [hstep, ih _ b l rfl rfl]
      simp [hhit]
    | ok res =>
      by_cases hp : (!(res.status == 401) && !(res.status == 403)) = true
      · have hhit : accessHit fetch e = true := by simp [accessHit, hfe, hp]
        have hstep : accessStep fetch ⟨f1, f2, some b, some l, f5, f6, f7, f8, f9⟩ e =
            ⟨f1, f2, some true, some (l ++ [accessIssue e]), f5, f6, f7, f8, f9⟩ := by
          simp [accessStep, hfe, hp, pushOpt]
        rw [hstep, ih _ true (l ++ [accessIssue e]) rfl rfl]
        simp [hhit]
      · have hhit : accessHit fetch e = false := by simp [accessHit, hfe, hp]
        have hstep : accessStep fetch ⟨f1, f2, some b, some l, f5, f6, f7, f8, f9⟩ e =
            ⟨f1, f2, some b, some l, f5, f6, f7, f8, f9⟩ := by
          simp [accessStep, hfe, hp]
        rw [hstep, ih _ b l rfl rfl]
        simp [hhit]

/-- `Map.set` on a present key replaces the looked-up record. -/
theorem getScan_setScan {ρ : Type} (st : MemStorage ρ) (sid : Nat) (sc : ScanRecord ρ) :
    MemStorage.getScan (MemStorage.setScan st sid sc) sid =
      (MemStorage.getScan st sid).map (fun _ => sc) := by
  induction st with
  | nil => rfl
  | cons p rest ih =>
    obtain ⟨k, v⟩ := p
    by_cases hk : (k == sid) = true
    · have hks : k = sid := by simpa using hk
      subst hks
      have hset : MemStorage.setScan ((k, v) :: rest) k sc
          = (k, sc) :: MemStorage.setScan rest k sc := by
        simp [MemStorage.setScan]
      rw [hset]
      have h1 : MemStorage.getScan ((k, sc) :: MemStorage.setScan rest k sc) k = some sc := by
        simp only [MemStorage.getScan]
        rw [List.find?_cons_of_pos _ (by simp)]
        rfl
      have h2 : MemStorage.getScan ((k, v) :: rest) k = some v := by
        simp only [MemStorage.getScan]
        rw [List.find?_cons_of_pos _ (by simp)]
        rfl
      rw [h1, h2]
      rfl
    · have hset : MemStorage.setScan ((k, v) :: rest) sid sc
          = (k, v) :: MemStorage.setScan rest sid sc := by
        simp only [MemStorage.setScan, List.map_cons]
        rw [if_neg (by simpa using hk)]
      rw [hset]
      have h1 : MemStorage.getScan ((k, v) :: MemStorage.setScan rest sid sc) sid
          = MemStorage.getScan (MemStorage.setScan rest sid sc) sid := by
        simp only [MemStorage.getScan]
        rw [List.find?_cons_of_neg _ (by simpa using hk)]
      have h2 : MemStorage.getScan ((k, v) :: rest) sid = MemStorage.getScan rest sid := by
        simp only [MemStorage.getScan]
        rw [List.find?_cons_of_neg _ (by simpa using hk)]
      rw [h1, h2]
      exact ih

end BugHunter

namespace BugHunter

/-- Claim C1 (code bug): validation is `url.protocol.startsWith("http")`,
so any scheme merely beginning with `http` passes.  The target
`httpabc://example.com` parses as an absolute URL whose scheme
`httpabc` is neither `http` nor `https`, yet `performSecurityCheck`
raises no invalid-target error and runs the scan, contradicting the
code's own error message "Only HTTP/HTTPS URLs are supported." -/
theorem scannerAcceptsNonHttpScheme :
    (parseUrl "httpabc://example.com").map Url.protocol = some "httpabc:" ∧
    ("httpabc:" ≠ "http:" ∧ "httpabc:" ≠ "https:") ∧
    (performSecurityCheck "httpabc://example.com" netAllOk).isOk = true := by
  refine ⟨by decide, ⟨by decide, by decide⟩, ?_⟩
  rw [performSecurityCheck_valid "httpabc://example.com"
      { protocol := "httpabc:", rest := "//example.com" } netAllOk (by decide) (by decide)]
  rfl

/-- Claim C4 (code bug): the SQL probe lowercases the response body but
compares it against the patterns verbatim, so the two patterns that
contain upper-case letters (`ORA-`, `SQL Server error`) can never
match.  A `/login` body leaking `ORA-00933` — which contains `ORA-`
under case-insensitive comparison — is not flagged: the probe reports
`vulnerable = false` and `endpoints = []`. -/
theorem sqlUppercasePatternsDead :
    "ORA-" ∈ sqlErrorPatterns ∧
    jsIncludes (jsToLower oraBody) (jsToLower "ORA-") = true ∧
    jsIncludes oraBody "ORA-" = true ∧
    (checkSQLInjection oraFetch initialResults.sql).1.vulnerable = some false ∧
    (checkSQLInjection oraFetch initialResults.sql).1.endpoints = some [] ∧
    (∀ body, jsIncludes (jsToLower body) "ORA-" = false) := by
  refine ⟨by decide, by decide, by decide, by decide, by decide, sqlPatternOraNeverMatches⟩

/-- Claim C5 counterexample: a response carrying all four required
headers — `x-frame-options` present with an empty value — is reported
with `missing = ["x-frame-options"]` and `secure = false`, although no
required header is absent. -/
theorem headersEmptyValueCounterexample :
    getHeader respEmptyXfo "x-frame-options" = some "" ∧
    respEmptyXfo.headers.map Prod.fst = requiredHeaders ∧
    (checkHeaders (Except.ok respEmptyXfo) initialResults.headers).1.missing =
      some ["x-frame-options"] ∧
    (checkHeaders (Except.ok respEmptyXfo) initialResults.headers).1.secure = some false := by
  refine ⟨by decide, by decide, by decide, by decide⟩

/-- Claim C5 amended: `missing` equals the ordered sublist of required
headers whose value is absent or empty (the JS-falsy test
`!headers[h]`), and `secure` holds iff that list is empty; with all
four headers carrying nonempty values the probe reports secure with
nothing missing, and with exactly `x-frame-options` falsy it reports
exactly `["x-frame-options"]`. -/
theorem checkHeadersMissingAmended (resp : Response) :
    (checkHeaders (Except.ok resp) initialResults.headers).1.missing =
      some (requiredHeaders.filter (fun h => isFalsyHeader (getHeader resp h))) ∧
    List.Sublist (requiredHeaders.filter (fun h => isFalsyHeader (getHeader resp h)))
      requiredHeaders ∧
    (checkHeaders (Except.ok resp) initialResults.headers).1.secure =
      some ((requiredHeaders.filter (fun h => isFalsyHeader (getHeader resp h))).length == 0) ∧
    ((∀ h ∈ requiredHeaders, isFalsyHeader (getHeader resp h) = false) →
      (checkHeaders (Except.ok resp) initialResults.headers).1 =
        { initialResults.headers with missing := some [], secure := some true }) ∧
    (isFalsyHeader (getHeader resp "strict-transport-security") = false →
     isFalsyHeader (getHeader resp "x-content-type-options") = false →
     isFalsyHeader (getHeader resp "x-frame-options") = true →
     isFalsyHeader (getHeader resp "content-security-policy") = false →
      (checkHeaders (Except.ok resp) initialResults.headers).1.missing =
        some ["x-frame-options"]) := by
  refine ⟨rfl, List.filter_sublist _, rfl, ?_, ?_⟩
  · intro hall
    have hfil : requiredHeaders.filter (fun h => isFalsyHeader (getHeader resp h)) = [] := by
      rw [List.filter_eq_nil_iff]
      intro a ha
      simp [hall a ha]
    have hch : (checkHeaders (Except.ok resp) initialResults.headers).1 =
        { initialResults.headers with
          missing := some (requiredHeaders.filter (fun h => isFalsyHeader (getHeader resp h))),
          secure := some
            ((requiredHeaders.filter (fun h => isFalsyHeader (getHeader resp h))).length == 0) } :=
      rfl
    rw [hch, hfil]
    rfl
  · intro h1 h2 h3 h4
    have hch : (checkHeaders (Except.ok resp) initialResults.headers).1.missing =
        some (requiredHeaders.filter (fun h => isFalsyHeader (getHeader resp h))) := rfl
    rw [hch]
    simp [requiredHeaders, List.filter_cons, h1, h2, h3, h4]

/-- Claim C9 (confirmed): `MemStorage.updateScanResults` marks an
existing job `completed` with progress `100` unconditionally — also
when the rejection handler's degraded aggregate (which itself carries
`status = "failed"`) is stored — and leaves the store unchanged for an
unknown id. -/
theorem updateScanResultsForcesCompleted {ρ : Type} (st : MemStorage ρ) (sid : Nat) (res : ρ) :
    (MemStorage.getScan st sid = none → MemStorage.updateScanResults st sid res = st) ∧
    (∀ scan, MemStorage.getScan st sid = some scan →
      MemStorage.getScan (MemStorage.updateScanResults st sid res) sid =
        some { scan with status := "completed", progress := 100, results := some res }) ∧
    MemStorage.getScan (MemStorage.updateScanResults demoStore 1 degradedExample) 1 =
      some { demoScan with
             status := "completed", progress := 100,
             results := some degradedExample } ∧
    degradedExample.status = "failed" ∧ demoScan.status = "running" := by
  refine ⟨?_, ?_, by decide, by decide, by decide⟩
  · intro h
    unfold MemStorage.updateScanResults
    rw [h]
  · intro scan h
    unfold MemStorage.updateScanResults
    rw [h]
    rw [getScan_setScan, h]
    rfl

end BugHunter

namespace BugHunter

/-- Claim C6 (confirmed): for each sensitive path, the access-control
probe marks the scan vulnerable and appends the issue naming that path
exactly when the unauthenticated GET succeeded with a status that is
neither 401 nor 403; an error or a 401/403 response yields no issue.
Concretely, a 200 on `/admin` (all other paths 403) yields
`vulnerable = true` with exactly the `/admin` issue, and all-403 yields
no issues. -/
theorem accessControlFlagging (fetch : Fetch) :
    (checkAccessControl fetch initialResults.accessControl).1.issues =
      some ((sensitiveEndpoints.filter (accessHit fetch)).map accessIssue) ∧
    (checkAccessControl fetch initialResults.accessControl).1.vulnerable =
      some (sensitiveEndpoints.any (accessHit fetch)) ∧
    (∀ e res, fetch (plainRequest e) = Except.ok res →
      (accessHit fetch e = true ↔ (res.status ≠ 401 ∧ res.status ≠ 403))) ∧
    (∀ e m, fetch (plainRequest e) = Except.error m → accessHit fetch e = false) ∧
    (∀ e, accessIssue e = "Endpoint " ++ e ++ " accessible without authentication") ∧
    (checkAccessControl adminOpenFetch initialResults.accessControl).1 =
      { vulnerable := some true, severity := some "high",
        issues := some ["Endpoint /admin accessible without authentication"] } ∧
    (checkAccessControl allForbiddenFetch initialResults.accessControl).1 =
      { vulnerable := some false, issues := some [], severity := some "high" } := by
  have hfold := access_foldl_spec fetch sensitiveEndpoints
      { initialResults.accessControl with
        vulnerable := some false, issues := some [], severity := some "high" }
      false [] rfl rfl
  have hc : (checkAccessControl fetch initialResults.accessControl).1 =
      sensitiveEndpoints.foldl (accessStep fetch)
        { initialResults.accessControl with
          vulnerable := some false, issues := some [], severity := some "high" } := rfl
  refine ⟨?_, ?_, ?_, ?_, fun e => rfl, by decide, by decide⟩
  · rw [hc, hfold]
    simp
  · rw [hc, hfold]
    simp
  · intro e res hfe
    have h1 : accessHit fetch e = (!(res.status == 401) && !(res.status == 403)) := by
      simp [accessHit, hfe]
    rw [h1]
    simp
  · intro e m hfe
    simp [accessHit, hfe]

/-- Claim C10 (confirmed): the XSS probe sends only the first payload
in query parameter `q` to each guessed endpoint (its verdict depends
only on the responses to those requests), yet flags an endpoint as
vulnerable whenever the body contains any of the three payloads in its
list — including the two never sent.  Concretely, a body reflecting
only the third payload at `/search` is flagged. -/
theorem xssPayloadAsymmetry (fetch : Fetch) :
    (∀ e, (xssRequest e).query = [("q", "<script>alert(1)</script>")]) ∧
    (∀ fetch2 : Fetch, (∀ e ∈ xssEndpoints, fetch2 (xssRequest e) = fetch (xssRequest e)) →
      checkXSS fetch2 initialResults.xss = checkXSS fetch initialResults.xss) ∧
    (checkXSS fetch initialResults.xss).1.endpoints =
      some (xssEndpoints.filter (xssHit fetch)) ∧
    (checkXSS fetch initialResults.xss).1.vulnerable =
      some (xssEndpoints.any (xssHit fetch)) ∧
    (∀ e res, fetch (xssRequest e) = Except.ok res →
      (xssHit fetch e = true ↔ xssPayloads.any (fun p => jsIncludes res.body p) = true)) ∧
    jsIncludes reflectedBody "<script>alert(1)</script>" = false ∧
    jsIncludes reflectedBody "\"><img src=x onerror=alert(1)>" = true ∧
    (checkXSS onlyThirdPayloadFetch initialResults.xss).1 =
      { vulnerable := some true, endpoints := some ["/search"] } := by
  have hfold := xss_foldl_spec fetch xssEndpoints
      { initialResults.xss with vulnerable := some false, endpoints := some [] } false [] rfl rfl
  have hc : (checkXSS fetch initialResults.xss).1 =
      xssEndpoints.foldl (xssStep fetch)
        { initialResults.xss with vulnerable := some false, endpoints := some [] } := rfl
  refine ⟨fun e => rfl, ?_, ?_, ?_, ?_, by decide, by decide, by decide⟩
  · intro fetch2 hagree
    have hstep : ∀ (acc : SecurityCheckResult) (e : String),
        fetch2 (xssRequest e) = fetch (xssRequest e) →
        xssStep fetch2 acc e = xssStep fetch acc e := by
      intro acc e he
      simp only [xssStep, he]
    have h1 := hagree "/search" (by simp [xssEndpoints])
    have h2 := hagree "/comment" (by simp [xssEndpoints])
    have h3 := hagree "/feedback" (by simp [xssEndpoints])
    show (xssEndpoints.foldl (xssStep fetch2)
        { initialResults.xss with vulnerable := some false, endpoints := some [] },
        (none : Option String)) = _
    simp only [xssEndpoints, List.foldl_cons, List.foldl_nil]
    rw [hstep _ "/search" h1]
    rw [hstep _ "/comment" h2]
    rw [hstep _ "/feedback" h3]
    rfl
  · rw [hc, hfold]
    simp
  · rw [hc, hfold]
    simp
  · intro e res hfe
    have h1 : xssHit fetch e = xssPayloads.any (fun p => jsIncludes res.body p) := by
      simp [xssHit, hfe]
    rw [h1]

end BugHunter

namespace BugHunter

/-- Claim C2 (confirmed): for a valid target the scan always resolves
(so the only error that can escape is the invalid-target error); when a
probe's unguarded fetch rejects, the orchestrator's catch appends the
single synthetic entry "<Category> Error: <message>" to that probe's
issue list and leaves its primary boolean at the pre-probe default; and
each category's verdict depends only on that probe's own network
oracle, so every remaining probe runs unaffected. -/
theorem probeFailureIsolation (s : String) (u : Url) (net : Network)
    (hp : parseUrl s = some u) (hh : jsStartsWith u.protocol "http" = true) :
    ∃ r log, performSecurityCheck s net = Except.ok (r, log) ∧
      (∀ m, net.cryptoFetch = Except.error m →
        r.cryptography = { secure := some false, issues := some ["Cryptography Error: " ++ m],
                           severity := some "critical" }) ∧
      (∀ m, net.configFetch = Except.error m →
        r.securityConfig = { secure := some false, issues := some ["Configuration Error: " ++ m],
                             severity := some "high" }) ∧
      (∀ m, net.componentsFetch = Except.error m →
        r.vulnerableComponents = { vulnerable := some false,
                                   issues := some ["Component Error: " ++ m],
                                   severity := some "critical" }) ∧
      (∀ m, net.integrityFetch = Except.error m →
        r.integrityFailures = { vulnerable := some false,
                                issues := some ["Integrity Error: " ++ m],
                                severity := some "high" }) ∧
      (∀ net2 r2 log2, performSecurityCheck s net2 = Except.ok (r2, log2) →
        (net2.sslResp = net.sslResp → r2.ssl = r.ssl) ∧
        (net2.headersResp = net.headersResp → r2.headers = r.headers) ∧
        (net2.xssFetch = net.xssFetch → r2.xss = r.xss) ∧
        (net2.sqlFetch = net.sqlFetch → r2.sql = r.sql) ∧
        (net2.accessFetch = net.accessFetch → r2.accessControl = r.accessControl) ∧
        (net2.cryptoFetch = net.cryptoFetch → r2.cryptography = r.cryptography) ∧
        (net2.designFetch = net.designFetch → r2.insecureDesign = r.insecureDesign) ∧
        (net2.configFetch = net.configFetch → r2.securityConfig = r.securityConfig) ∧
        (net2.componentsFetch = net.componentsFetch → r2.vulnerableComponents = r.vulnerableComponents) ∧
        (net2.authFetch = net.authFetch → r2.authentication = r.authentication) ∧
        (net2.integrityFetch = net.integrityFetch → r2.integrityFailures = r.integrityFailures) ∧
        (net2.loggingFetch = net.loggingFetch → r2.logging = r.logging) ∧
        (net2.ssrfFetch = net.ssrfFetch → r2.ssrf = r.ssrf))
    := by
  refine ⟨(runCheck13 net).1, (runCheck13 net).2,
    by rw [performSecurityCheck_valid s u net hp hh], ?_, ?_, ?_, ?_, ?_⟩
  · intro m hm
    rw [runCheck13_crypto_eq net, hm]
    rfl
  · intro m hm
    rw [runCheck13_config_eq net, hm]
    rfl
  · intro m hm
    rw [runCheck13_components_eq net, hm]
    rfl
  · intro m hm
    rw [runCheck13_integrity_eq net, hm]
    rfl
  · intro net2 r2 log2 h2
    rw [performSecurityCheck_valid s u net2 hp hh] at h2
    have hpair := Except.ok.inj h2
    have hr2 : r2 = (runCheck13 net2).1 := (congrArg Prod.fst hpair).symm
    subst hr2
    refine ⟨?_, ?_, ?_, ?_, ?_, ?_, ?_, ?_, ?_, ?_, ?_, ?_, ?_⟩
    · intro heq
      rw [runCheck13_ssl_eq net2, runCheck13_ssl_eq net, heq]
    · intro heq
      rw [runCheck13_headers_eq net2, runCheck13_headers_eq net, heq]
    · intro heq
      rw [runCheck13_xss_eq net2, runCheck13_xss_eq net, heq]
    · intro heq
      rw [runCheck13_sql_eq net2, runCheck13_sql_eq net, heq]
    · intro heq
      rw [runCheck13_access_eq net2, runCheck13_access_eq net, heq]
    · intro heq
      rw [runCheck13_crypto_eq net2, runCheck13_crypto_eq net, heq]
    · intro heq
      rw [runCheck13_design_eq net2, runCheck13_design_eq net, heq]
    · intro heq
      rw [runCheck13_config_eq net2, runCheck13_config_eq net, heq]
    · intro heq
      rw [runCheck13_components_eq net2, runCheck13_components_eq net, heq]
    · intro heq
      rw [runCheck13_auth_eq net2, runCheck13_auth_eq net, heq]
    · intro heq
      rw [runCheck13_integrity_eq net2, runCheck13_integrity_eq net, heq]
    · intro heq
      rw [runCheck13_logging_eq net2, runCheck13_logging_eq net, heq]
    · intro heq
      rw [runCheck13_ssrf_eq net2, runCheck13_ssrf_eq net, heq]

/-- Witness for C2 at a concrete valid target whose cryptography fetch
rejects with "boom". -/
theorem probeFailureIsolationWitness :
    parseUrl "https://example.com" = some urlExample ∧
    jsStartsWith urlExample.protocol "http" = true ∧
    netCryptoBoom.cryptoFetch = Except.error "boom" ∧
    ∃ r log, performSecurityCheck "https://example.com" netCryptoBoom = Except.ok (r, log) ∧
      r.cryptography = { secure := some false, issues := some ["Cryptography Error: boom"],
                         severity := some "critical" } := by
  refine ⟨rfl, rfl, rfl, ?_⟩
  obtain ⟨r, log, h1, h2, -, -, -, -⟩ :=
    probeFailureIsolation "https://example.com" urlExample netCryptoBoom rfl rfl
  exact ⟨r, log, h1, h2 "boom" rfl⟩

/-- Claim C7 (confirmed): for every valid target the scan resolves with
an aggregate carrying a verdict for each of the 13 categories (the
fixed record shape guarantees the key set is identical at creation and
at return), and the aggregate is created with every category's primary
boolean `false` and its list field empty. -/
theorem aggregateCategoriesComplete (s : String) (u : Url) (net : Network)
    (hp : parseUrl s = some u) (hh : jsStartsWith u.protocol "http" = true) :
    (∃ r log, performSecurityCheck s net = Except.ok (r, log) ∧ (categories r).length = 13) ∧
    (∀ r : SecurityScanResults, (categories r).length = 13) ∧
    categories initialResults =
      [{ valid := some false, issues := some [] },
       { secure := some false, missing := some [] },
       { vulnerable := some false, endpoints := some [] },
       { vulnerable := some false, endpoints := some [] },
       { vulnerable := some false, issues := some [] },
       { secure := some false, issues := some [] },
       { vulnerable := some false, issues := some [] },
       { secure := some false, issues := some [] },
       { vulnerable := some false, issues := some [] },
       { secure := some false, issues := some [] },
       { vulnerable := some false, issues := some [] },
       { secure := some false, issues := some [] },
       { vulnerable := some false, endpoints := some [] }] := by
  exact ⟨⟨(runCheck13 net).1, (runCheck13 net).2,
    by rw [performSecurityCheck_valid s u net hp hh], rfl⟩, fun r => rfl, rfl⟩

/-- Witness for C7 at a concrete valid target. -/
theorem aggregateCategoriesCompleteWitness :
    parseUrl "https://example.com" = some urlExample ∧
    jsStartsWith urlExample.protocol "http" = true ∧
    ∃ r log, performSecurityCheck "https://example.com" netAllOk = Except.ok (r, log) ∧
      (categories r).length = 13 := by
  refine ⟨rfl, rfl, ?_⟩
  obtain ⟨⟨r, log, h1, h2⟩, -, -⟩ :=
    aggregateCategoriesComplete "https://example.com" urlExample netAllOk rfl rfl
  exact ⟨r, log, h1, h2⟩

end BugHunter

namespace BugHunter

/-- Claim C3 counterexample: with every probe succeeding on the target
"https://example.com", the first value passed to `updateProgress` is
the exact rational 100/13 — not the claimed integer
round(100*1/13) = 8 — so the emitted values are not of the claimed
form; and with the cryptography fetch rejecting, only 12 values are
emitted instead of one per probe: the callback is skipped for a probe
whose exception was caught. -/
theorem progressValuesNotRoundedCounterexample :
    (performSecurityCheck "https://example.com" netAllOk).toOption.map
      (fun p => p.2.head?) = some (some (progressValue 1)) ∧
    progressValue 1 = (100 : ℚ)/13 ∧
    round ((100 : ℚ)/13) = 8 ∧
    ((100 : ℚ)/13) ≠ (8 : ℚ) ∧
    (performSecurityCheck "https://example.com" netAllOk).toOption.map
      (fun p => p.2.length) = some 13 ∧
    (performSecurityCheck "https://example.com" netCryptoFail).toOption.map
      (fun p => p.2.length) = some 12 := by
  have hv := performSecurityCheck_valid "https://example.com" urlExample netAllOk rfl rfl
  have hv2 := performSecurityCheck_valid "https://example.com" urlExample netCryptoFail rfl rfl
  have hflags : (runsOf netAllOk).map Prod.snd = List.replicate 13 none := by decide
  refine ⟨?_, ?_, ?_, ?_, ?_, ?_⟩
  · rw [hv]
    show some ((runCheck13 netAllOk).2.head?) = _
    rw [runCheck13_progress netAllOk, hflags]
    rfl
  · norm_num [progressValue, totalChecks]
  · rw [round_eq]
    have h2 : ((100 : ℚ)/13 + 1/2) = 213/26 := by norm_num
    rw [h2, Int.floor_eq_iff]
    norm_num
  · norm_num
  · rw [hv]
    show some ((runCheck13 netAllOk).2.length) = _
    rw [runCheck13_progress netAllOk, hflags]
    rfl
  · rw [hv2]
    show some ((runCheck13 netCryptoFail).2.length) = _
    rw [runCheck13_progress netCryptoFail]
    have hflags2 : (runsOf netCryptoFail).map Prod.snd =
        [none, none, none, none, none, some "connect ECONNREFUSED",
         none, none, none, none, none, none, none] := by decide
    rw [hflags2]
    rfl

/-- Claim C3 amended: `onProgress` is invoked once per probe that
completes without a caught exception — skipped for a probe whose
exception is caught — with the exact value
`completedCount * (100/13)` (not rounded to an integer); the observed
values are strictly increasing, their number equals the number of
non-throwing probes, and when every probe succeeds the sequence has
length 13 and ends at exactly 100. -/
theorem progressEmissionAmended (s : String) (u : Url) (net : Network)
    (hp : parseUrl s = some u) (hh : jsStartsWith u.protocol "http" = true) :
    ∃ r log, performSecurityCheck s net = Except.ok (r, log) ∧
      log = progressSeq 0 ((runsOf net).map Prod.snd) ∧
      List.Pairwise (fun a b => a < b) log ∧
      log.length = ((runsOf net).map Prod.snd).count none ∧
      (((runsOf net).map Prod.snd) = List.replicate 13 none →
        log.length = 13 ∧ log.getLast? = some (100 : ℚ)) := by
  refine ⟨(runCheck13 net).1, (runCheck13 net).2,
    by rw [performSecurityCheck_valid s u net hp hh], runCheck13_progress net, ?_, ?_, ?_⟩
  · rw [runCheck13_progress net]
    exact progressSeq_pairwise _ 0
  · rw [runCheck13_progress net]
    exact progressSeq_length _ 0
  · intro hall
    rw [runCheck13_progress net, hall]
    constructor
    · rfl
    · have h1 : (progressSeq 0 (List.replicate 13 none)).getLast? =
          some (progressValue 13) := rfl
      rw [h1]
      norm_num [progressValue, totalChecks]

/-- Witness for the amended C3 at a concrete all-success scan. -/
theorem progressEmissionAmendedWitness :
    parseUrl "https://example.com" = some urlExample ∧
    jsStartsWith urlExample.protocol "http" = true ∧
    ∃ r log, performSecurityCheck "https://example.com" netAllOk = Except.ok (r, log) ∧
      log.length = 13 ∧ log.getLast? = some (100 : ℚ) := by
  refine ⟨rfl, rfl, ?_⟩
  obtain ⟨r, log, h1, h2, h3, h4, h5⟩ :=
    progressEmissionAmended "https://example.com" urlExample netAllOk rfl rfl
  obtain ⟨h6, h7⟩ := h5 (by decide)
  exact ⟨r, log, h1, h6, h7⟩

/-- Claim C8 counterexample: with every call of the XSS probe failing
(connection refused) and all other probes' calls succeeding, the scan
completes and the XSS endpoint list is empty — it does not contain the
one synthetic error entry the claim requires; and with every call of
the authentication probe failing instead, that probe's trailing
`secure = issues.length === 0` runs over the empty issue list and
reports `secure = true` — the primary boolean does not stay at its
safe default. -/
theorem xssAllFailNoSyntheticEntryCounterexample :
    netXssFail.xssFetch (xssRequest "/search") = Except.error "connect ECONNREFUSED" ∧
    (performSecurityCheck "https://example.com" netXssFail).toOption.map (fun p => p.1.xss) =
      some { vulnerable := some false, endpoints := some [] } ∧
    (performSecurityCheck "https://example.com" netXssFail).toOption.map
      (fun p => (p.1.xss.endpoints.getD []).length) = some 0 ∧
    (∀ q, netAuthFail.authFetch q = Except.error "connect ECONNREFUSED") ∧
    (performSecurityCheck "https://example.com" netAuthFail).toOption.map
      (fun p => p.1.authentication.secure) = some (some true) ∧
    (performSecurityCheck "https://example.com" netAuthFail).toOption.map
      (fun p => p.1.authentication.issues) = some (some []) := by
  refine ⟨rfl, by decide, by decide, fun q => rfl, by decide, by decide⟩

/-- Claim C8 amended: when every network call of one probe fails while
all other probes' calls succeed, the scan still completes and every
other category is unaffected (each depends only on its own probe's
oracle).  The failing probe's verdict depends on its shape: the SSL and
headers probes record exactly one synthetic `<Category> Error:` entry
themselves and keep their primary boolean at the safe default; the
single-fetch probes (cryptography, security config, vulnerable
components, integrity failures) get exactly one such entry from the
orchestrator's catch, primary boolean at the safe default; the
endpoint-looping probes record nothing — XSS, SQL, access control,
insecure design and SSRF keep their safe default with empty lists,
while authentication and logging then compute
`secure = issues.length === 0` over the empty issue list and report
`secure = true`, flipping their primary boolean away from the safe
default. -/
theorem probeNetworkFailureAmended (s : String) (u : Url) (net : Network)
    (hp : parseUrl s = some u) (hh : jsStartsWith u.protocol "http" = true) :
    ∃ r log, performSecurityCheck s net = Except.ok (r, log) ∧
      (∀ m, net.sslResp = Except.error m →
        r.ssl = { valid := some false, issues := some ["SSL Error: " ++ m] }) ∧
      (∀ m, net.headersResp = Except.error m →
        r.headers = { secure := some false, missing := some ["Headers Error: " ++ m] }) ∧
      (∀ m, (∀ q, net.xssFetch q = Except.error m) →
        r.xss = { vulnerable := some false, endpoints := some [] }) ∧
      (∀ m, (∀ q, net.sqlFetch q = Except.error m) →
        r.sql = { vulnerable := some false, endpoints := some [] }) ∧
      (∀ m, (∀ q, net.accessFetch q = Except.error m) →
        r.accessControl = { vulnerable := some false, issues := some [],
                            severity := some "high" }) ∧
      (∀ m, net.cryptoFetch = Except.error m →
        r.cryptography = { secure := some false, issues := some ["Cryptography Error: " ++ m],
                           severity := some "critical" }) ∧
      (∀ m, (∀ q, net.designFetch q = Except.error m) →
        r.insecureDesign = { vulnerable := some false, issues := some [],
                             severity := some "high" }) ∧
      (∀ m, net.configFetch = Except.error m →
        r.securityConfig = { secure := some false, issues := some ["Configuration Error: " ++ m],
                             severity := some "high" }) ∧
      (∀ m, net.componentsFetch = Except.error m →
        r.vulnerableComponents = { vulnerable := some false,
                                   issues := some ["Component Error: " ++ m],
                                   severity := some "critical" }) ∧
      (∀ m, (∀ q, net.authFetch q = Except.error m) →
        r.authentication = { secure := some true, issues := some [],
                             severity := some "critical" }) ∧
      (∀ m, net.integrityFetch = Except.error m →
        r.integrityFailures = { vulnerable := some false,
                                issues := some ["Integrity Error: " ++ m],
                                severity := some "high" }) ∧
      (∀ m, (∀ q, net.loggingFetch q = Except.error m) →
        r.logging = { secure := some true, issues := some [], severity := some "medium" }) ∧
      (∀ m, (∀ q, net.ssrfFetch q = Except.error m) →
        r.ssrf = { vulnerable := some false, endpoints := some [],
                   severity := some "critical" }) ∧
      (∀ net2 r2 log2, performSecurityCheck s net2 = Except.ok (r2, log2) →
        (net2.sslResp = net.sslResp → r2.ssl = r.ssl) ∧
        (net2.headersResp = net.headersResp → r2.headers = r.headers) ∧
        (net2.xssFetch = net.xssFetch → r2.xss = r.xss) ∧
        (net2.sqlFetch = net.sqlFetch → r2.sql = r.sql) ∧
        (net2.accessFetch = net.accessFetch → r2.accessControl = r.accessControl) ∧
        (net2.cryptoFetch = net.cryptoFetch → r2.cryptography = r.cryptography) ∧
        (net2.designFetch = net.designFetch → r2.insecureDesign = r.insecureDesign) ∧
        (net2.configFetch = net.configFetch → r2.securityConfig = r.securityConfig) ∧
        (net2.componentsFetch = net.componentsFetch → r2.vulnerableComponents = r.vulnerableComponents) ∧
        (net2.authFetch = net.authFetch → r2.authentication = r.authentication) ∧
        (net2.integrityFetch = net.integrityFetch → r2.integrityFailures = r.integrityFailures) ∧
        (net2.loggingFetch = net.loggingFetch → r2.logging = r.logging) ∧
        (net2.ssrfFetch = net.ssrfFetch → r2.ssrf = r.ssrf))
    := by
  refine ⟨(runCheck13 net).1, (runCheck13 net).2,
    by rw [performSecurityCheck_valid s u net hp hh],
    ?_, ?_, ?_, ?_, ?_, ?_, ?_, ?_, ?_, ?_, ?_, ?_, ?_, ?_⟩
  · intro m hm
    rw [runCheck13_ssl_eq net, hm]
    rfl
  · intro m hm
    rw [runCheck13_headers_eq net, hm]
    rfl
  · intro m hfail
    rw [runCheck13_xss_eq net]
    have h1 : ∀ acc, xssStep net.xssFetch acc "/search" = acc := fun acc => by
      simp [xssStep, hfail (xssRequest "/search")]
    have h2 : ∀ acc, xssStep net.xssFetch acc "/comment" = acc := fun acc => by
      simp [xssStep, hfail (xssRequest "/comment")]
    have h3 : ∀ acc, xssStep net.xssFetch acc "/feedback" = acc := fun acc => by
      simp [xssStep, hfail (xssRequest "/feedback")]
    show xssEndpoints.foldl (xssStep net.xssFetch)
        { initialResults.xss with vulnerable := some false, endpoints := some [] } = _
    simp only [xssEndpoints, List.foldl_cons, List.foldl_nil, h1, h2, h3]
    rfl
  · intro m hfail
    rw [runCheck13_sql_eq net]
    have h1 : ∀ acc, sqlStep net.sqlFetch acc "/login" = acc := fun acc => by
      simp [sqlStep, hfail (sqlRequest "/login")]
    have h2 : ∀ acc, sqlStep net.sqlFetch acc "/search" = acc := fun acc => by
      simp [sqlStep, hfail (sqlRequest "/search")]
    have h3 : ∀ acc, sqlStep net.sqlFetch acc "/profile" = acc := fun acc => by
      simp [sqlStep, hfail (sqlRequest "/profile")]
    show sqlEndpoints.foldl (sqlStep net.sqlFetch)
        { initialResults.sql with vulnerable := some false, endpoints := some [] } = _
    simp only [sqlEndpoints, List.foldl_cons, List.foldl_nil, h1, h2, h3]
    rfl
  · intro m hfail
    rw [runCheck13_access_eq net]
    have h1 : ∀ acc, accessStep net.accessFetch acc "/admin" = acc := fun acc => by
      simp [accessStep, hfail (plainRequest "/admin")]
    have h2 : ∀ acc, accessStep net.accessFetch acc "/api/users" = acc := fun acc => by
      simp [accessStep, hfail (plainRequest "/api/users")]
    have h3 : ∀ acc, accessStep net.accessFetch acc "/dashboard" = acc := fun acc => by
      simp [accessStep, hfail (plainRequest "/dashboard")]
    have h4 : ∀ acc, accessStep net.accessFetch acc "/settings" = acc := fun acc => by
      simp [accessStep, hfail (plainRequest "/settings")]
    show sensitiveEndpoints.foldl (accessStep net.accessFetch)
        { initialResults.accessControl with
          vulnerable := some false, issues := some [], severity := some "high" } = _
    simp only [sensitiveEndpoints, List.foldl_cons, List.foldl_nil, h1, h2, h3, h4]
    rfl
  · intro m hm
    rw [runCheck13_crypto_eq net, hm]
    rfl
  · intro m hfail
    rw [runCheck13_design_eq net]
    simp only [settledVerdict, checkInsecureDesign, designEndpoints, List.foldl_cons,
      List.foldl_nil, hfail]
    rfl
  · intro m hm
    rw [runCheck13_config_eq net, hm]
    rfl
  · intro m hm
    rw [runCheck13_components_eq net, hm]
    rfl
  · intro m hfail
    rw [runCheck13_auth_eq net]
    simp only [settledVerdict, checkAuthentication, authEndpoints, List.foldl_cons,
      List.foldl_nil, hfail]
    rfl
  · intro m hm
    rw [runCheck13_integrity_eq net, hm]
    rfl
  · intro m hfail
    rw [runCheck13_logging_eq net]
    simp only [settledVerdict, checkLogging, suspiciousActions, List.foldl_cons,
      List.foldl_nil, hfail]
    rfl
  · intro m hfail
    rw [runCheck13_ssrf_eq net]
    simp only [settledVerdict, checkSSRF, ssrfEndpoints, ssrfTestUrls, List.foldl_cons,
      List.foldl_nil, hfail]
    rfl
  · intro net2 r2 log2 h2
    rw [performSecurityCheck_valid s u net2 hp hh] at h2
    have hpair := Except.ok.inj h2
    have hr2 : r2 = (runCheck13 net2).1 := (congrArg Prod.fst hpair).symm
    subst hr2
    refine ⟨?_, ?_, ?_, ?_, ?_, ?_, ?_, ?_, ?_, ?_, ?_, ?_, ?_⟩
    · intro heq
      rw [runCheck13_ssl_eq net2, runCheck13_ssl_eq net, heq]
    · intro heq
      rw [runCheck13_headers_eq net2, runCheck13_headers_eq net, heq]
    · intro heq
      rw [runCheck13_xss_eq net2, runCheck13_xss_eq net, heq]
    · intro heq
      rw [runCheck13_sql_eq net2, runCheck13_sql_eq net, heq]
    · intro heq
      rw [runCheck13_access_eq net2, runCheck13_access_eq net, heq]
    · intro heq
      rw [runCheck13_crypto_eq net2, runCheck13_crypto_eq net, heq]
    · intro heq
      rw [runCheck13_design_eq net2, runCheck13_design_eq net, heq]
    · intro heq
      rw [runCheck13_config_eq net2, runCheck13_config_eq net, heq]
    · intro heq
      rw [runCheck13_components_eq net2, runCheck13_components_eq net, heq]
    · intro heq
      rw [runCheck13_auth_eq net2, runCheck13_auth_eq net, heq]
    · intro heq
      rw [runCheck13_integrity_eq net2, runCheck13_integrity_eq net, heq]
    · intro heq
      rw [runCheck13_logging_eq net2, runCheck13_logging_eq net, heq]
    · intro heq
      rw [runCheck13_ssrf_eq net2, runCheck13_ssrf_eq net, heq]

/-- Witness for the amended C8: SSL request and all XSS calls refused,
everything else fine. -/
theorem probeNetworkFailureAmendedWitness :
    parseUrl "https://example.com" = some urlExample ∧
    netSslXssFail.sslResp = Except.error "refused" ∧
    (∀ q, netSslXssFail.xssFetch q = Except.error "refused") ∧
    ∃ r log, performSecurityCheck "https://example.com" netSslXssFail = Except.ok (r, log) ∧
      r.ssl = { valid := some false, issues := some ["SSL Error: refused"] } ∧
      r.xss = { vulnerable := some false, endpoints := some [] } := by
  refine ⟨rfl, rfl, fun q => rfl, ?_⟩
  obtain ⟨r, log, h1, h2, -, h3, -, -, -, -, -, -, -, -, -, -, -⟩ :=
    probeNetworkFailureAmended "https://example.com" urlExample netSslXssFail rfl rfl
  exact ⟨r, log, h1, h2 "refused" rfl, h3 "refused" (fun q => rfl)⟩

end BugHunter
